import Mathlib

/-!
Shallow embedding of the prompt-assembly and context-window engine of the
`conversant` library (files `conversant/prompt_chatbot.py`,
`conversant/prompts/prompt.py`, `conversant/prompts/chat_prompt.py`).

Python dictionaries with string keys are modelled as ordered association
lists (`List (String × String)`), matching the insertion-order semantics of
Python dicts.  The external tokenizer (`co.tokenize(text).length`) is a
parameter `tok : String → Nat`, and the external generator's raw output is
a parameter `genText : String`.
-/

/-- Characters removed by Python `str.strip` / `str.lstrip` (ASCII range). -/
def pyIsSpace (c : Char) : Bool :=
  c = ' ' || c = '\t' || c = '\n' || c = '\x0d' || c = '\x0b' || c = '\x0c'

/-- Python `str.lstrip()`. -/
def pyLstrip (s : String) : String :=
  ⟨s.data.dropWhile pyIsSpace⟩

/-- Python `str.strip()`: drop whitespace from both ends. -/
def pyStrip (s : String) : String :=
  ⟨((s.data.dropWhile pyIsSpace).reverse.dropWhile pyIsSpace).reverse⟩

/-- Decidable suffix test on character lists (Python `str.endswith`). -/
def listSuffix (s r : List Char) : Bool :=
  decide (s.length ≤ r.length) && decide (r.drop (r.length - s.length) = s)

/-- Python `r.endswith(s)`. -/
def pyEndsWith (r s : String) : Bool :=
  listSuffix s.data r.data

/-- Python `r[:-len(s)]`.  Note the Python quirk: when `len(s) = 0` the slice
is `r[:0] = ""`, not `r`. -/
def pySliceDropSuffix (r s : String) : String :=
  if s.data.length = 0 then "" else ⟨r.data.take (r.data.length - s.data.length)⟩

/-- Python `l[-k:]` for an integer `k > 0` (the only way the source uses it):
the trailing `min k (len l)` elements. -/
def pyTail {α : Type} (l : List α) (k : Int) : List α :=
  l.drop (l.length - k.toNat)

/-- An `Interaction` (`conversant/chatbot.py`): a Python dict from role key to
utterance, as an ordered association list. -/
abbrev Interaction := List (String × String)

/-- Python `d[k]`-style first lookup (keys are unique in a Python dict). -/
def dictGet (d : Interaction) (k : String) : Option String :=
  (d.find? (fun p => p.1 = k)).map (fun p => p.2)

/-- Python `d[k] = v` on a dict: replace in place if the key is present,
else append at the end. -/
def dictSet (d : Interaction) (k : String) (v : String) : Interaction :=
  if d.any (fun p => p.1 = k) then
    d.map (fun p => if p.1 = k then (k, v) else p)
  else d ++ [(k, v)]

/-- Python `d.update(kvs)`. -/
def dictUpdate (d : Interaction) (kvs : Interaction) : Interaction :=
  kvs.foldl (fun acc p => dictSet acc p.1 p.2) d

/-- The dict comprehension in `Prompt.create_interaction`:
`{key : args[i] if i < len(args) else "" for i, key in enumerate(headers.keys())}`. -/
def fillPositional : List (String × String) → List String → Interaction
  | [], _ => []
  | (k, _) :: hs, [] => (k, "") :: fillPositional hs []
  | (k, _) :: hs, a :: as => (k, a) :: fillPositional hs as

/-- `Prompt.create_interaction` (`prompts/prompt.py`): positional arguments
fill header roles in declaration order, keyword arguments then override. -/
def createInteraction (headers : List (String × String)) (args : List String)
    (kwargs : Interaction) : Interaction :=
  dictUpdate (fillPositional headers args) kwargs

/-- Base `Prompt` dataclass of `conversant/prompts/prompt.py`.  The three
upper-case validation constants are genuine dataclass fields with defaults
`[]`, `1`, `1`. -/
structure Prompt where
  preamble : String
  example_separator : String
  headers : List (String × String)
  examples : List Interaction
  REQUIRED_KEYS : List String
  MIN_PREAMBLE_LENGTH : Nat
  MIN_NUM_EXAMPLES : Nat
deriving Repr, DecidableEq

/-- Source `Prompt.create_interaction`. -/
def Prompt.create_interaction (p : Prompt) (args : List String)
    (kwargs : Interaction) : Interaction :=
  createInteraction p.headers args kwargs

/-- Validators run by `Prompt.__post_init__` (preamble length, required header keys,
required keys in every example, minimum number of examples).  The
`example_separator`-is-a-string check holds by typing. -/
def promptOk (p : Prompt) : Bool :=
  decide (p.MIN_PREAMBLE_LENGTH ≤ p.preamble.length) &&
  p.REQUIRED_KEYS.all (fun k => (p.headers.map Prod.fst).contains k) &&
  p.examples.all (fun ex => p.REQUIRED_KEYS.all (fun k => (ex.map Prod.fst).contains k)) &&
  decide (p.MIN_NUM_EXAMPLES ≤ p.examples.length)

/-- The output dict of `Prompt.to_dict`: exactly the four data fields. -/
structure PromptDict where
  preamble : String
  example_separator : String
  headers : List (String × String)
  examples : List Interaction
deriving Repr, DecidableEq

/-- Source `Prompt.to_dict`. -/
def Prompt.to_dict (p : Prompt) : PromptDict :=
  ⟨p.preamble, p.example_separator, p.headers, p.examples⟩

/-- Source `Prompt.from_dict`: `cls(**config)` with the four serialized keys; the
validation constants take their defaults and `__post_init__` validation runs
(raising `ValueError` on failure). -/
def Prompt.from_dict (d : PromptDict) : Except String Prompt :=
  let p : Prompt := ⟨d.preamble, d.example_separator, d.headers, d.examples, [], 1, 1⟩
  if promptOk p then .ok p else .error "ValueError"

/-- Chat variant `ChatPrompt` of `conversant/prompts/chat_prompt.py`, whose
examples are conversations (lists of interactions). -/
structure ChatPrompt where
  preamble : String
  example_separator : String
  headers : List (String × String)
  examples : List (List Interaction)
deriving Repr, DecidableEq

/-- Header label lookup `self.headers[key]`.  The source raises `KeyError`
for a missing key; all uses below look up keys present in `headers`. -/
def headerLabel (headers : List (String × String)) (k : String) : String :=
  (dictGet headers k).getD ""

/-- Source `ChatPrompt.create_interaction` (inherited from `Prompt`). -/
def ChatPrompt.create_interaction (p : ChatPrompt) (args : List String)
    (kwargs : Interaction) : Interaction :=
  createInteraction p.headers args kwargs

/-- Source `ChatPrompt.create_interaction_string`: builds the interaction from the
positional arguments when any are given (else uses the keyword dict), then
stitches `"{header}: {value}\n"` per key in the interaction's own order. -/
def ChatPrompt.create_interaction_string (p : ChatPrompt) (args : List String)
    (kwargs : Interaction) : String :=
  let interaction := if args.length > 0 then p.create_interaction args kwargs else kwargs
  String.join (interaction.map (fun kv => headerLabel p.headers kv.1 ++ ": " ++ kv.2 ++ "\n"))

/-- Source `ChatPrompt.create_conversation_string`. -/
def ChatPrompt.create_conversation_string (p : ChatPrompt)
    (conversation : List Interaction) : String :=
  String.join (conversation.map (fun i => p.create_interaction_string [] i))

/-- Source `ChatPrompt.to_string`: preamble + newline, then the example separator
and the separator-joined conversation strings, all stripped. -/
def ChatPrompt.to_string (p : ChatPrompt) : String :=
  pyStrip (p.preamble ++ "\n" ++ p.example_separator ++
    String.intercalate p.example_separator
      (p.examples.map (fun e => p.create_conversation_string e)))

/-- Constant `MAX_GENERATE_TOKENS` of `prompt_chatbot.py`. -/
def MAX_GENERATE_TOKENS : Nat := 2048

/-- The mutable state of a `PromptChatbot` session (`prompt_chatbot.py`),
instantiated as in `from_persona` with a `ChatPrompt`.  `max_prompt_size` is
the attribute set at construction to `MAX_GENERATE_TOKENS -
client_config["max_tokens"]`; `chatbot_max_context_examples` is
`chatbot_config["max_context_examples"]` and `stop_sequences` is
`client_config["stop_sequences"]`. -/
structure BotState where
  prompt : ChatPrompt
  chatbot_max_context_examples : Int
  stop_sequences : List String
  max_prompt_size : Int
  chat_history : List Interaction
  prompt_size_history : List Nat
  prompt_history : List String
  curr_max_context_examples : Int
deriving Repr

/-- Source `PromptChatbot.get_current_prompt`: base prompt, example separator, the
trailing `max_context_examples` history turns, the formatted query, all
stripped.  `none` means the `max_context_examples = None` default, replaced
by `chatbot_config["max_context_examples"]`. -/
def get_current_prompt (st : BotState) (query : String) (mceOpt : Option Int) : String :=
  let mce := mceOpt.getD st.chatbot_max_context_examples
  let base_prompt := st.prompt.to_string ++ "\n"
  let trimmed_chat_history := if mce > 0 then pyTail st.chat_history mce else []
  let context_prompt := st.prompt.example_separator ++
    String.join (trimmed_chat_history.map (fun turn => st.prompt.create_interaction_string [] turn))
  let query_prompt := st.prompt.create_interaction_string [query] []
  pyStrip (base_prompt ++ context_prompt ++ query_prompt)

/-- The `for size in self.prompt_size_history[-max_context_examples:]` loop of
`PromptChatbot._update_max_context_examples`: subtract recorded sizes of the
oldest retained turns until the running size fits, returning the decremented
`trimmed_max_examples`, or `none` when the window is exhausted. -/
def shrinkLoop (maxPS : Int) : List Nat → Int → Int → Option Int
  | [], _, _ => none
  | s :: rest, prompt_size, trimmed =>
    let prompt_size' := prompt_size - (s : Int)
    let trimmed' := trimmed - 1
    if prompt_size' ≤ maxPS then some trimmed' else shrinkLoop maxPS rest prompt_size' trimmed'

/-- Source `PromptChatbot._update_max_context_examples`: on success it sets
`self.curr_max_context_examples` and returns the reduced value; when the
window cannot be shrunk enough (or `max_context_examples ≤ 0`) it raises
`ValueError` before any mutation. -/
def update_max_context_examples (st : BotState) (prompt_size : Int)
    (max_context_examples : Int) : Except String (BotState × Int) :=
  if max_context_examples > 0 then
    match shrinkLoop st.max_prompt_size (pyTail st.prompt_size_history max_context_examples)
        prompt_size (min (st.chat_history.length : Int) max_context_examples) with
    | some trimmed => .ok ({ st with curr_max_context_examples := trimmed }, trimmed)
    | none => .error "PromptTooLargeError"
  else .error "PromptTooLargeError"

/-- The stop-sequence removal loop in `PromptChatbot.reply`: for every
configured stop sequence in order, if the current response ends with it,
slice it off. -/
def stripStops (stops : List String) (raw : String) : String :=
  stops.foldl (fun r s => if pyEndsWith r s then pySliceDropSuffix r s else r) raw

/-- Response post-processing in `PromptChatbot.reply`: stop-sequence removal
followed by `lstrip()`. -/
def postprocessResponse (stops : List String) (raw : String) : String :=
  pyLstrip (stripStops stops raw)

/-- The prompt-assembly phase of `PromptChatbot.reply`: build the current
prompt from the configured `max_context_examples`; if its tokenized size
exceeds `max_prompt_size`, run `_update_max_context_examples` and re-render
with the reduced window (the shrunk prompt is not re-tokenized). -/
def assembleForReply (tok : String → Nat) (st : BotState) (query : String) :
    Except String (BotState × String) :=
  let current_prompt := get_current_prompt st query none
  let current_prompt_size : Int := tok current_prompt
  if current_prompt_size > st.max_prompt_size then
    match update_max_context_examples st current_prompt_size st.chatbot_max_context_examples with
    | .ok (st1, mce) => .ok (st1, get_current_prompt st1 query (some mce))
    | .error e => .error e
  else .ok (st, current_prompt)

/-- Source `PromptChatbot.reply`.  Returns the session state as left by the call
(unchanged up to the raise point on failure, mirroring the in-place mutation
order of the source) together with the raised error or the returned value.
The source returns the post-processed `response` string. -/
def reply (tok : String → Nat) (genText : String) (st : BotState) (query : String) :
    BotState × Except String String :=
  match assembleForReply tok st query with
  | .error e => (st, .error e)
  | .ok (st1, current_prompt) =>
    let response := postprocessResponse st1.stop_sequences genText
    let newInteraction := st1.prompt.create_interaction [query, response] []
    let newSize := tok (st1.prompt.create_interaction_string [query, response] [])
    ({ st1 with
        chat_history := st1.chat_history ++ [newInteraction],
        prompt_size_history := st1.prompt_size_history ++ [newSize],
        prompt_history := st1.prompt_history ++ [current_prompt] },
     .ok response)

/-- Generation parameters of `client_config` (`prompt_chatbot.py`,
`configure_client` defaults).  Python floats are modelled as rationals; the
claims only constrain `max_tokens`. -/
structure ClientConfig where
  model : String
  max_tokens : Int
  temperature : Rat
  frequency_penalty : Rat
  presence_penalty : Rat
  stop_sequences : List String
deriving Repr, DecidableEq

/-- A supplied `client_config` dictionary: any subset of the six keys. -/
structure ClientConfigPatch where
  model : Option String
  max_tokens : Option Int
  temperature : Option Rat
  frequency_penalty : Option Rat
  presence_penalty : Option Rat
  stop_sequences : Option (List String)
deriving Repr, DecidableEq

/-- Default `client_config` values set by `configure_client` on a fresh bot. -/
def defaultClientConfig : ClientConfig :=
  { model := "xlarge", max_tokens := 100, temperature := 3 / 4,
    frequency_penalty := 0, presence_penalty := 0, stop_sequences := ["\n"] }

/-- Python `self.client_config.update(client_config)`: supplied values win
key-by-key. -/
def mergeClientConfig (base : ClientConfig) (patch : ClientConfigPatch) : ClientConfig :=
  { model := patch.model.getD base.model,
    max_tokens := patch.max_tokens.getD base.max_tokens,
    temperature := patch.temperature.getD base.temperature,
    frequency_penalty := patch.frequency_penalty.getD base.frequency_penalty,
    presence_penalty := patch.presence_penalty.getD base.presence_penalty,
    stop_sequences := patch.stop_sequences.getD base.stop_sequences }

/-- Source `PromptChatbot.configure_client` on a fresh bot: merge the supplied
config onto the defaults, raise `ValueError` when the merged `max_tokens`
reaches `MAX_GENERATE_TOKENS`, and warn (returned as a `Bool`) when it
exceeds three quarters of it.  The source compares the integer `max_tokens`
against the float `MAX_GENERATE_TOKENS * 0.75 = 1536.0`, which is exact in
binary, so for integers it is the integer comparison `4 * max_tokens >
3 * MAX_GENERATE_TOKENS`.  The dict-type check of the source holds by
typing here. -/
def configure_client (patch : ClientConfigPatch) : Except String (ClientConfig × Bool) :=
  let cfg := mergeClientConfig defaultClientConfig patch
  if cfg.max_tokens ≥ (MAX_GENERATE_TOKENS : Int) then .error "ValueError"
  else .ok (cfg, decide ((MAX_GENERATE_TOKENS : Int) * 3 < cfg.max_tokens * 4))

/-- Helper: whether an `Except` is an error. -/
def exceptIsError {ε α : Type} : Except ε α → Bool
  | .error _ => true
  | .ok _ => false

/-- The chat template of the exact-assembly scenario: preamble
"You are a helpful bot.", headers user/bot, one example conversation with the
single interaction hi/hello, and the empty example separator forced by the
expected output string. -/
def scenarioPrompt : ChatPrompt :=
  { preamble := "You are a helpful bot.", example_separator := "",
    headers := [("user", "User"), ("bot", "Bot")],
    examples := [[[("user", "hi"), ("bot", "hello")]]] }

/-- A fresh session over `scenarioPrompt`: empty chat history,
`max_context_examples = 10`, default `client_config` (`max_tokens = 100`,
hence `max_prompt_size = 1948`, `stop_sequences = ["\n"]`). -/
def scenarioState : BotState :=
  { prompt := scenarioPrompt, chatbot_max_context_examples := 10,
    stop_sequences := ["\n"], max_prompt_size := 1948, chat_history := [],
    prompt_size_history := [scenarioPrompt.to_string.length],
    prompt_history := [scenarioPrompt.to_string], curr_max_context_examples := 10 }

/-- A ten-character-preamble template used by the failure fixtures. -/
def tinyPrompt : ChatPrompt :=
  { preamble := "abcdefghij", example_separator := "",
    headers := [("user", "U"), ("bot", "B")], examples := [] }

/-- Session whose recorded prompt-size history (1000 tokens for the single
stored turn) overestimates the turn, with a tight budget
(`max_tokens = 2040`, so `max_prompt_size = 8`). -/
def overestimateState : BotState :=
  { prompt := tinyPrompt, chatbot_max_context_examples := 1,
    stop_sequences := ["\n"], max_prompt_size := 8,
    chat_history := [[("user", "x"), ("bot", "y")]],
    prompt_size_history := [1000], prompt_history := [tinyPrompt.to_string],
    curr_max_context_examples := 1 }

/-- Session with the same tight budget whose recorded sizes are too small to
ever fit: the shrink loop exhausts the window and raises. -/
def oversizedState : BotState :=
  { prompt := tinyPrompt, chatbot_max_context_examples := 1,
    stop_sequences := ["\n"], max_prompt_size := 8,
    chat_history := [[("user", "x"), ("bot", "y")]],
    prompt_size_history := [1], prompt_history := [tinyPrompt.to_string],
    curr_max_context_examples := 1 }

/-- A valid `Prompt` whose `REQUIRED_KEYS` constant differs from the default:
serialization drops it. -/
def customKeysPrompt : Prompt :=
  { preamble := "This is a prompt.", example_separator := "\n",
    headers := [("query", "Q: ")], examples := [[("query", "hi")]],
    REQUIRED_KEYS := ["query"], MIN_PREAMBLE_LENGTH := 1, MIN_NUM_EXAMPLES := 1 }

/-- A valid `Prompt` carrying the default constants: it round-trips exactly. -/
def defaultKeysPrompt : Prompt :=
  { preamble := "Hello.", example_separator := "\n",
    headers := [("user", "User")], examples := [[("user", "hi")]],
    REQUIRED_KEYS := [], MIN_PREAMBLE_LENGTH := 1, MIN_NUM_EXAMPLES := 1 }

/-- Two-header prompt for the interaction-constructor witness. -/
def twoHeaderPrompt : Prompt :=
  { preamble := "P.", example_separator := "",
    headers := [("user", "User"), ("bot", "Bot")],
    examples := [[("user", "x"), ("bot", "y")]],
    REQUIRED_KEYS := [], MIN_PREAMBLE_LENGTH := 1, MIN_NUM_EXAMPLES := 1 }

/-- Appending the empty string is the identity. -/
theorem strAppendNil (s : String) : s ++ "" = s := by
  cases s; simp [String.ext_iff]

/-- Folding append over a list factors out the initial string. -/
theorem strFoldlAppend (l : List String) :
    ∀ i : String, l.foldl (fun r s => r ++ s) i = i ++ l.foldl (fun r s => r ++ s) "" := by
  induction l with
  | nil => intro i; exact (strAppendNil i).symm
  | cons a l ih =>
    intro i
    show l.foldl (fun r s => r ++ s) (i ++ a) = i ++ l.foldl (fun r s => r ++ s) ("" ++ a)
    rw [ih (i ++ a), ih ("" ++ a)]
    show i ++ a ++ _ = i ++ (a ++ _)
    rw [String.append_assoc]

/-- Unfolding lemma for `String.join` on the empty list. -/
theorem strJoinNil : String.join ([] : List String) = "" := rfl

/-- Unfolding lemma for `String.join` on a cons. -/
theorem strJoinCons (a : String) (l : List String) :
    String.join (a :: l) = a ++ String.join l := by
  show l.foldl (fun r s => r ++ s) ("" ++ a) = a ++ String.join l
  rw [strFoldlAppend l ("" ++ a)]; rfl

/-- Join distributes over list append. -/
theorem strJoinAppend (l1 l2 : List String) :
    String.join (l1 ++ l2) = String.join l1 ++ String.join l2 := by
  induction l1 with
  | nil => rfl
  | cons a l ih =>
    show String.join (a :: (l ++ l2)) = _
    rw [strJoinCons, ih, strJoinCons, String.append_assoc]

/-- Claim C6 (confirmed): with the scenario chat template (preamble
"You are a helpful bot.", headers user ↦ User, bot ↦ Bot, the single example
interaction hi/hello, empty separator), `max_context_examples = 10`, empty
chat history and query "test", the assembled prompt is exactly the expected
string with no trailing whitespace. -/
theorem exact_assembly_scenario :
    get_current_prompt scenarioState "test" none
      = "You are a helpful bot.\nUser: hi\nBot: hello\nUser: test\nBot:" := by
  rfl

/-- Claim C8 (confirmed): assembling with `max_context_examples = 0` ignores
the chat history entirely and yields only the static template text (base
prompt and example separator) followed by the formatted query. -/
theorem zero_context_boundary (st : BotState) (q : String) (h : List Interaction) :
    get_current_prompt { st with chat_history := h } q (some 0)
        = get_current_prompt { st with chat_history := [] } q (some 0)
    ∧ get_current_prompt { st with chat_history := h } q (some 0)
        = pyStrip (st.prompt.to_string ++ "\n"
            ++ (st.prompt.example_separator ++ st.prompt.create_interaction_string [q] [])) := by
  constructor
  · rfl
  · show pyStrip ((st.prompt.to_string ++ "\n")
        ++ (st.prompt.example_separator ++ String.join []) ++ st.prompt.create_interaction_string [q] []) = _
    rw [strJoinNil, strAppendNil, String.append_assoc]

/-- A successful `listSuffix` test decomposes the list. -/
theorem listSuffix_decomp (s r : List Char) (h : listSuffix s r = true) :
    r.take (r.length - s.length) ++ s = r := by
  unfold listSuffix at h
  rw [Bool.and_eq_true, decide_eq_true_eq, decide_eq_true_eq] at h
  calc r.take (r.length - s.length) ++ s
      = r.take (r.length - s.length) ++ r.drop (r.length - s.length) := by rw [h.2]
    _ = r := List.take_append_drop _ r

/-- Removing a matched, non-empty stop-sequence suffix splits the string. -/
theorem pySliceDropSuffix_append (r s : String) (hs : s.data ≠ [])
    (h : pyEndsWith r s = true) : pySliceDropSuffix r s ++ s = r := by
  unfold pySliceDropSuffix
  rw [if_neg (fun h0 => hs (List.length_eq_zero.mp h0))]
  unfold pyEndsWith at h
  have hd := listSuffix_decomp s.data r.data h
  show String.mk _ ++ String.mk s.data = r
  show String.mk (r.data.take (r.data.length - s.data.length) ++ s.data) = r
  rw [hd]

/-- One step of the stop-sequence loop. -/
theorem stripStops_cons (s : String) (rest : List String) (raw : String) :
    stripStops (s :: rest) raw
      = stripStops rest (if pyEndsWith raw s then pySliceDropSuffix raw s else raw) := rfl

/-- Claim C4 (amended, proved): the stop-sequence loop removes, for each
configured stop sequence in configuration order, at most one matched suffix
from the current remainder (so several removals can occur in one reply, one
per stop sequence), and the recorded response is the left-trimmed remainder.
The removed suffixes form a sublist of the configured stop sequences and
concatenate back (innermost last) to the raw output. -/
theorem strip_stops_per_stop (stops : List String) (raw : String)
    (h : ∀ s ∈ stops, s.data ≠ []) :
    ∃ removed : List String, removed.Sublist stops
      ∧ stripStops stops raw ++ String.join removed.reverse = raw
      ∧ postprocessResponse stops raw = pyLstrip (stripStops stops raw) := by
  induction stops generalizing raw with
  | nil => exact ⟨[], List.Sublist.refl _, strAppendNil raw, rfl⟩
  | cons s rest ih =>
    have hs : s.data ≠ [] := h s (by simp)
    have hrest : ∀ t ∈ rest, t.data ≠ [] := fun t ht => h t (by simp [ht])
    by_cases hend : pyEndsWith raw s = true
    · obtain ⟨removed, hsub, heq, _⟩ := ih (pySliceDropSuffix raw s) hrest
      refine ⟨s :: removed, List.Sublist.cons₂ s hsub, ?_, rfl⟩
      rw [stripStops_cons, if_pos hend, List.reverse_cons, strJoinAppend]
      have hsing : String.join [s] = s := rfl
      rw [hsing, ← String.append_assoc, heq]
      exact pySliceDropSuffix_append raw s hs hend
    · obtain ⟨removed, hsub, heq, _⟩ := ih raw hrest
      refine ⟨removed, hsub.cons s, ?_, rfl⟩
      rw [stripStops_cons, if_neg hend]
      exact heq

/-- Witness for the amended C4 at the default stop sequence: stripping the
generator output "Hello!\n". -/
theorem strip_stops_per_stop_witness :
    (∀ s ∈ (["\n"] : List String), s.data ≠ [])
    ∧ ∃ removed : List String, removed.Sublist ["\n"]
        ∧ stripStops ["\n"] "Hello!\n" ++ String.join removed.reverse = "Hello!\n"
        ∧ postprocessResponse ["\n"] "Hello!\n" = pyLstrip (stripStops ["\n"] "Hello!\n") :=
  ⟨by decide, strip_stops_per_stop ["\n"] "Hello!\n" (by decide)⟩

/-- Counterexample to C4 as stated: with stop sequences ["a", "b"] and raw
output "xba", the loop removes both "a" and then "b" (two removals), giving
"x"; an at-most-one-removal policy could only produce "xba" (no removal) or
"xb" (removing the only matching suffix "a", since "b" is not a suffix of
the raw output). -/
theorem strip_stops_twice_counterexample :
    postprocessResponse ["a", "b"] "xba" = "x"
    ∧ pyLstrip "xba" ≠ "x"
    ∧ pyEndsWith "xba" "a" = true
    ∧ pyLstrip (pySliceDropSuffix "xba" "a") ≠ "x"
    ∧ pyEndsWith "xba" "b" = false := by
  refine ⟨rfl, by decide, rfl, by decide, rfl⟩

/-- Claim C7 (amended, proved): serialization round-trips the four data
fields exactly, including header and example order, whenever the preamble
and example list satisfy the default minimums re-checked by `from_dict`; the
validation-constant fields are not serialized and come back as the defaults,
so full field-for-field equality holds exactly for prompts carrying the
default constants. -/
theorem prompt_roundtrip_data_fields (t : Prompt)
    (h1 : 1 ≤ t.preamble.length) (h2 : 1 ≤ t.examples.length) :
    Prompt.from_dict t.to_dict
      = .ok { preamble := t.preamble, example_separator := t.example_separator,
              headers := t.headers, examples := t.examples,
              REQUIRED_KEYS := [], MIN_PREAMBLE_LENGTH := 1, MIN_NUM_EXAMPLES := 1 } := by
  unfold Prompt.from_dict Prompt.to_dict
  rw [if_pos]
  unfold promptOk
  simp [h1, h2]

/-- Witness for the amended C7: a concrete default-constants prompt
round-trips to itself on the nose. -/
theorem prompt_roundtrip_data_fields_witness :
    1 ≤ defaultKeysPrompt.preamble.length
    ∧ 1 ≤ defaultKeysPrompt.examples.length
    ∧ Prompt.from_dict defaultKeysPrompt.to_dict = .ok defaultKeysPrompt :=
  ⟨by decide, by decide,
    prompt_roundtrip_data_fields defaultKeysPrompt (by decide) (by decide)⟩

/-- Counterexample to C7 as stated: `customKeysPrompt` is a valid prompt
(its validators pass), but `from_dict (to_dict t)` resets the
`REQUIRED_KEYS` dataclass field to the default `[]`, so the reconstructed
value is not equal to `t` field-for-field. -/
theorem prompt_roundtrip_counterexample :
    promptOk customKeysPrompt = true
    ∧ (Prompt.from_dict customKeysPrompt.to_dict).toOption ≠ some customKeysPrompt
    ∧ (Prompt.from_dict customKeysPrompt.to_dict).toOption
        = some { customKeysPrompt with REQUIRED_KEYS := [] } := by
  refine ⟨by decide, by decide, by decide⟩

/-- Unfolding lemma for `configure_client`. -/
theorem configure_client_eq (patch : ClientConfigPatch) :
    configure_client patch
      = if (MAX_GENERATE_TOKENS : Int) ≤ patch.max_tokens.getD 100
        then .error "ValueError"
        else .ok (mergeClientConfig defaultClientConfig patch,
            decide ((MAX_GENERATE_TOKENS : Int) * 3 < patch.max_tokens.getD 100 * 4)) := rfl

/-- Claim C9 (confirmed): configuring the client fails exactly when the
merged `max_tokens` reaches `MAX_GENERATE_TOKENS`; below the cap it
succeeds, warns exactly when `max_tokens` exceeds three quarters of the cap
(1536), and every merged field is the supplied value when present and the
default otherwise. -/
theorem configure_client_spec (patch : ClientConfigPatch) (cfg : ClientConfig) (warned : Bool) :
    (exceptIsError (configure_client patch) = true
        ↔ (MAX_GENERATE_TOKENS : Int) ≤ patch.max_tokens.getD 100)
    ∧ (configure_client patch = .ok (cfg, warned) →
        cfg.max_tokens < (MAX_GENERATE_TOKENS : Int)
        ∧ cfg.model = patch.model.getD "xlarge"
        ∧ cfg.max_tokens = patch.max_tokens.getD 100
        ∧ cfg.temperature = patch.temperature.getD (3 / 4)
        ∧ cfg.frequency_penalty = patch.frequency_penalty.getD 0
        ∧ cfg.presence_penalty = patch.presence_penalty.getD 0
        ∧ cfg.stop_sequences = patch.stop_sequences.getD ["\n"]
        ∧ (warned = true ↔ 1536 < cfg.max_tokens)) := by
  rw [configure_client_eq]
  by_cases hcap : (MAX_GENERATE_TOKENS : Int) ≤ patch.max_tokens.getD 100
  · rw [if_pos hcap]
    exact ⟨⟨fun _ => hcap, fun _ => rfl⟩, fun h => Except.noConfusion h⟩
  · rw [if_neg hcap]
    constructor
    · constructor
      · intro h; exact absurd h (by simp [exceptIsError])
      · intro hle; exact absurd hle hcap
    · intro h
      rw [Except.ok.injEq, Prod.mk.injEq] at h
      obtain ⟨hcfg, hw⟩ := h
      subst hcfg
      refine ⟨?_, rfl, rfl, rfl, rfl, rfl, rfl, ?_⟩
      · show patch.max_tokens.getD 100 < (MAX_GENERATE_TOKENS : Int)
        omega
      · rw [← hw, decide_eq_true_eq]
        show ((MAX_GENERATE_TOKENS : Int) * 3 < patch.max_tokens.getD 100 * 4)
          ↔ 1536 < patch.max_tokens.getD 100
        simp only [MAX_GENERATE_TOKENS]
        omega

/-- Witness for C9 at a concrete supplied config raising only `max_tokens`
to 2000: configuration succeeds with a warning and the merged value is the
supplied one. -/
theorem configure_client_spec_witness :
    (exceptIsError (configure_client
        { model := none, max_tokens := some 2000, temperature := none,
          frequency_penalty := none, presence_penalty := none, stop_sequences := none }) = true
      ↔ (MAX_GENERATE_TOKENS : Int) ≤ 2000)
    ∧ ((2000 : Int) < (MAX_GENERATE_TOKENS : Int)
        ∧ (true = true ↔ (1536 : Int) < 2000)) := by
  have H := configure_client_spec
    { model := none, max_tokens := some 2000, temperature := none,
      frequency_penalty := none, presence_penalty := none, stop_sequences := none }
    { model := "xlarge", max_tokens := 2000, temperature := 3 / 4,
      frequency_penalty := 0, presence_penalty := 0, stop_sequences := ["\n"] } true
  have H2 := H.2 (by rfl)
  exact ⟨H.1, H2.1, H2.2.2.2.2.2.2.2⟩

/-- Unfolding lemma for `dictGet` on a cons. -/
theorem dictGet_cons (p : String × String) (d : Interaction) (k : String) :
    dictGet (p :: d) k = if p.1 = k then some p.2 else dictGet d k := by
  unfold dictGet
  by_cases h : p.1 = k
  · rw [List.find?_cons_of_pos _ (by simpa using h), if_pos h]
    rfl
  · rw [List.find?_cons_of_neg _ (by simpa using h), if_neg h]

/-- A key that fails the membership probe is absent from the lookup. -/
theorem dictGet_eq_none (d : Interaction) (k : String)
    (h : d.any (fun p => p.1 = k) = false) : dictGet d k = none := by
  induction d with
  | nil => rfl
  | cons p d ih =>
    rw [List.any_cons, Bool.or_eq_false_iff] at h
    rw [dictGet_cons, if_neg (by simpa using h.1)]
    exact ih h.2

/-- Replacing the entries keyed `k` in place does not change other lookups. -/
theorem dictGet_mapReplace (d : Interaction) (k v k2 : String) (h : k2 ≠ k) :
    dictGet (d.map (fun p => if p.1 = k then (k, v) else p)) k2 = dictGet d k2 := by
  induction d with
  | nil => rfl
  | cons p d ih =>
    rw [List.map_cons]
    by_cases hp : p.1 = k
    · rw [if_pos hp, dictGet_cons, dictGet_cons,
        if_neg (show ¬((k, v).1 = k2) from fun hkk => h hkk.symm),
        if_neg (fun hpk2 => h (hpk2.symm.trans hp))]
      exact ih
    · rw [if_neg hp, dictGet_cons, dictGet_cons]
      by_cases hp2 : p.1 = k2
      · rw [if_pos hp2, if_pos hp2]
      · rw [if_neg hp2, if_neg hp2]
        exact ih

/-- Replacing the entries keyed `k` in place makes the lookup of `k` return
the new value, provided some entry has key `k`. -/
theorem dictGet_mapReplace_self (d : Interaction) (k v : String)
    (h : d.any (fun p => p.1 = k) = true) :
    dictGet (d.map (fun p => if p.1 = k then (k, v) else p)) k = some v := by
  induction d with
  | nil => cases h
  | cons p d ih =>
    rw [List.map_cons]
    by_cases hp : p.1 = k
    · rw [if_pos hp, dictGet_cons, if_pos (show (k, v).1 = k from rfl)]
    · rw [if_neg hp, dictGet_cons, if_neg hp]
      rw [List.any_cons, Bool.or_eq_true_iff] at h
      exact ih (h.resolve_left (by simpa using hp))

/-- Lookup distributes over append, preferring the left dict. -/
theorem dictGet_append (d1 d2 : Interaction) (k : String) :
    dictGet (d1 ++ d2) k
      = match dictGet d1 k with
        | some v => some v
        | none => dictGet d2 k := by
  induction d1 with
  | nil => rfl
  | cons p d ih =>
    rw [List.cons_append, dictGet_cons, dictGet_cons]
    by_cases hp : p.1 = k
    · rw [if_pos hp, if_pos hp]
    · rw [if_neg hp, if_neg hp]
      exact ih

/-- Characterization of a single Python dict assignment. -/
theorem dictGet_dictSet (d : Interaction) (k v k2 : String) :
    dictGet (dictSet d k v) k2 = if k2 = k then some v else dictGet d k2 := by
  unfold dictSet
  by_cases hany : d.any (fun p => p.1 = k) = true
  · rw [if_pos hany]
    by_cases hk : k2 = k
    · subst hk; rw [if_pos rfl]; exact dictGet_mapReplace_self d k2 v hany
    · rw [if_neg hk]; exact dictGet_mapReplace d k v k2 hk
  · rw [if_neg hany, dictGet_append]
    have hnone : d.any (fun p => p.1 = k) = false := by
      cases hb : d.any (fun p => p.1 = k)
      · rfl
      · exact absurd hb hany
    by_cases hk : k2 = k
    · subst hk
      rw [dictGet_eq_none d k2 hnone, if_pos rfl, dictGet_cons,
        if_pos (show (k2, v).1 = k2 from rfl)]
    · rw [if_neg hk]
      rcases hd : dictGet d k2 with _ | v2
      · show dictGet [(k, v)] k2 = none
        rw [dictGet_cons, if_neg (fun hkk => hk hkk.symm)]
        rfl
      · rfl
      
/-- Key list of a single Python dict assignment. -/
theorem dictSet_keys (d : Interaction) (k v : String) :
    (dictSet d k v).map Prod.fst
      = if d.any (fun p => p.1 = k) = true
        then d.map Prod.fst else d.map Prod.fst ++ [k] := by
  unfold dictSet
  by_cases hany : d.any (fun p => p.1 = k) = true
  · rw [if_pos hany, if_pos hany, List.map_map]
    refine List.map_congr_left (fun p _ => ?_)
    by_cases hp : p.1 = k
    · simp [hp]
    · simp [hp]
  · rw [if_neg hany, if_neg hany, List.map_append]
    rfl

/-- Lookup is `none` exactly off the key list. -/
theorem dictGet_eq_none_iff (d : Interaction) (k : String) :
    dictGet d k = none ↔ k ∉ d.map Prod.fst := by
  induction d with
  | nil => simp [dictGet]
  | cons p d ih =>
    rw [dictGet_cons, List.map_cons, List.mem_cons]
    by_cases hp : p.1 = k
    · simp [hp]
    · simp only [if_neg hp, ih]
      constructor
      · intro h hmem
        exact (hmem.resolve_left (fun hkp => hp hkp.symm) : k ∈ d.map Prod.fst) |> h
      · intro h
        exact fun hmem => h (Or.inr hmem)

/-- Keys untouched by an update keep their lookup. -/
theorem dictGet_dictUpdate_none (kvs : Interaction) (k : String)
    (h : dictGet kvs k = none) : ∀ d : Interaction, dictGet (dictUpdate d kvs) k = dictGet d k := by
  induction kvs with
  | nil => intro d; rfl
  | cons q kvs ih =>
    intro d
    rw [dictGet_cons] at h
    by_cases hq : q.1 = k
    · rw [if_pos hq] at h; cases h
    · rw [if_neg hq] at h
      show dictGet (dictUpdate (dictSet d q.1 q.2) kvs) k = dictGet d k
      rw [ih h, dictGet_dictSet, if_neg (fun hkq => hq hkq.symm)]

/-- Updated keys take the supplied value (Python keyword arguments carry
distinct keys). -/
theorem dictGet_dictUpdate_some (kvs : Interaction) (k v : String)
    (hnd : (kvs.map Prod.fst).Nodup) (h : dictGet kvs k = some v) :
    ∀ d : Interaction, dictGet (dictUpdate d kvs) k = some v := by
  induction kvs with
  | nil => cases h
  | cons q kvs ih =>
    intro d
    rw [List.map_cons, List.nodup_cons] at hnd
    rw [dictGet_cons] at h
    by_cases hq : q.1 = k
    · rw [if_pos hq] at h
      have hrest : dictGet kvs k = none := by
        rw [dictGet_eq_none_iff]
        exact hq ▸ hnd.1
      show dictGet (dictUpdate (dictSet d q.1 q.2) kvs) k = some v
      rw [dictGet_dictUpdate_none kvs k hrest, dictGet_dictSet,
        if_pos hq.symm, h]
    · rw [if_neg hq] at h
      exact ih hnd.2 h _

/-- Membership probe agrees with membership in the key list. -/
theorem dictAny_eq_contains (d : Interaction) (k : String) :
    d.any (fun p => p.1 = k) = (d.map Prod.fst).contains k := by
  induction d with
  | nil => rfl
  | cons p d ih =>
    rw [List.any_cons, List.map_cons, List.contains_cons, ih]
    by_cases hp : p.1 = k
    · simp [hp]
    · simp [hp, Ne.symm hp]

/-- Key list of a Python dict update: original keys, then genuinely new
supplied keys in supplied order. -/
theorem dictUpdate_keys (kvs : Interaction) (hnd : (kvs.map Prod.fst).Nodup) :
    ∀ d : Interaction, (dictUpdate d kvs).map Prod.fst
      = d.map Prod.fst
        ++ (kvs.map Prod.fst).filter (fun k2 => !((d.map Prod.fst).contains k2)) := by
  induction kvs with
  | nil => intro d; exact (List.append_nil _).symm
  | cons q kvs ih =>
    intro d
    rw [List.map_cons, List.nodup_cons] at hnd
    show (dictUpdate (dictSet d q.1 q.2) kvs).map Prod.fst = _
    rw [ih hnd.2, dictSet_keys, List.map_cons, List.filter_cons]
    by_cases hq : (d.map Prod.fst).contains q.1 = true
    · rw [if_pos ((dictAny_eq_contains d q.1).trans hq), if_neg (by rw [hq]; decide)]
    · have hqf : (d.map Prod.fst).contains q.1 = false := by
        cases hb : (d.map Prod.fst).contains q.1
        · rfl
        · exact absurd hb hq
      rw [if_neg (by rw [dictAny_eq_contains, hqf]; decide), if_pos (by rw [hqf]; decide)]
      rw [List.append_assoc, List.singleton_append]
      congr 2
      refine List.filter_congr (fun k2 hk2 => ?_)
      have hne : k2 ≠ q.1 := fun he => hnd.1 (he ▸ hk2)
      have hc : ((List.map Prod.fst d ++ [q.1]).contains k2)
          = ((List.map Prod.fst d).contains k2) := by
        simp [List.contains_eq_any_beq, List.any_append, hne]
      rw [hc]

/-- Unfolding lemma for `fillPositional` on a cons. -/
theorem fillPositional_cons (h : String × String) (hs : List (String × String))
    (args : List String) :
    fillPositional (h :: hs) args = (h.1, args.getD 0 "") :: fillPositional hs args.tail := by
  rcases h with ⟨k, l⟩
  cases args <;> rfl

/-- Positional fill keeps exactly the header keys, in order. -/
theorem fillPositional_keys (hs : List (String × String)) :
    ∀ args : List String, (fillPositional hs args).map Prod.fst = hs.map Prod.fst := by
  induction hs with
  | nil => intro args; rfl
  | cons h hs ih =>
    intro args
    rw [fillPositional_cons, List.map_cons, List.map_cons, ih]

/-- Positional arguments beyond the number of headers are ignored. -/
theorem fillPositional_take (hs : List (String × String)) :
    ∀ args : List String, fillPositional hs args = fillPositional hs (args.take hs.length) := by
  induction hs with
  | nil => intro args; rfl
  | cons h hs ih =>
    intro args
    rcases h with ⟨k, l⟩
    cases args with
    | nil => rfl
    | cons a as =>
      show (k, a) :: fillPositional hs as = (k, a) :: fillPositional hs (as.take hs.length)
      rw [← ih as]

/-- The role at position `i` is filled with the `i`-th positional argument,
defaulting to the empty string. -/
theorem fillPositional_get (hs : List (String × String)) :
    ∀ (args : List String) (i : Nat) (k : String), (hs.map Prod.fst).Nodup →
      (hs.map Prod.fst)[i]? = some k →
      dictGet (fillPositional hs args) k = some (args.getD i "") := by
  induction hs with
  | nil => intro args i k _ hik; cases hik
  | cons h hs ih =>
    intro args i k hnd hik
    rw [List.map_cons, List.nodup_cons] at hnd
    rw [fillPositional_cons, dictGet_cons]
    cases i with
    | zero =>
      rw [List.map_cons] at hik
      have hk : h.1 = k := by simpa using hik
      rw [if_pos hk]
    | succ i =>
      rw [List.map_cons] at hik
      have hik2 : (hs.map Prod.fst)[i]? = some k := by simpa using hik
      have hkmem : k ∈ hs.map Prod.fst := List.getElem?_mem hik2
      have hne : ¬(h.1 = k) := fun he => hnd.1 (show h.1 ∈ hs.map Prod.fst from he.symm ▸ hkmem)
      rw [if_neg hne]
      rw [ih args.tail i k hnd.2 hik2]
      cases args <;> rfl

/-- Claim C10 (confirmed): `create_interaction` starts from the header roles
in declaration order, fills the `i`-th role with the `i`-th positional
argument when present and the empty string otherwise, silently ignores
positional arguments beyond the headers, and lets keyword arguments override
existing roles or append new keys in supplied order. -/
theorem create_interaction_spec (p : Prompt) (args : List String) (kwargs : Interaction)
    (hh : (p.headers.map Prod.fst).Nodup) (hk : (kwargs.map Prod.fst).Nodup) :
    (p.create_interaction args kwargs).map Prod.fst
        = p.headers.map Prod.fst
          ++ (kwargs.map Prod.fst).filter (fun k2 => !((p.headers.map Prod.fst).contains k2))
    ∧ (∀ i k, (p.headers.map Prod.fst)[i]? = some k → dictGet kwargs k = none →
        dictGet (p.create_interaction args kwargs) k = some (args.getD i ""))
    ∧ (∀ k v, dictGet kwargs k = some v →
        dictGet (p.create_interaction args kwargs) k = some v)
    ∧ p.create_interaction args kwargs = p.create_interaction (args.take p.headers.length) kwargs := by
  refine ⟨?_, ?_, ?_, ?_⟩
  · show (dictUpdate (fillPositional p.headers args) kwargs).map Prod.fst = _
    rw [dictUpdate_keys kwargs hk, fillPositional_keys]
  · intro i k hik hnone
    show dictGet (dictUpdate (fillPositional p.headers args) kwargs) k = _
    rw [dictGet_dictUpdate_none kwargs k hnone]
    exact fillPositional_get p.headers args i k hh hik
  · intro k v hv
    exact dictGet_dictUpdate_some kwargs k v hk hv _
  · show dictUpdate (fillPositional p.headers args) kwargs
        = dictUpdate (fillPositional p.headers (args.take p.headers.length)) kwargs
    rw [← fillPositional_take]

/-- Witness for C10 on a two-header prompt with three positional arguments
(the third ignored) and keyword arguments that override the bot role and add
a fresh key. -/
theorem create_interaction_spec_witness :
    (twoHeaderPrompt.create_interaction ["q", "r", "extra"] [("bot", "B2"), ("note", "N")]).map Prod.fst
        = ["user", "bot"] ++ (["bot", "note"].filter (fun k2 => !((["user", "bot"] : List String).contains k2)))
    ∧ dictGet (twoHeaderPrompt.create_interaction ["q", "r", "extra"] [("bot", "B2"), ("note", "N")]) "user"
        = some (["q", "r", "extra"].getD 0 "")
    ∧ dictGet (twoHeaderPrompt.create_interaction ["q", "r", "extra"] [("bot", "B2"), ("note", "N")]) "bot"
        = some "B2"
    ∧ twoHeaderPrompt.create_interaction ["q", "r", "extra"] [("bot", "B2"), ("note", "N")]
        = twoHeaderPrompt.create_interaction (["q", "r", "extra"].take twoHeaderPrompt.headers.length)
            [("bot", "B2"), ("note", "N")] := by
  have H := create_interaction_spec twoHeaderPrompt ["q", "r", "extra"]
    [("bot", "B2"), ("note", "N")] (by decide) (by decide)
  exact ⟨H.1, H.2.1 0 "user" (by rfl) (by rfl), H.2.2.1 "bot" "B2" (by rfl), H.2.2.2⟩

/-- Unfolding lemma for `shrinkLoop` on a cons. -/
theorem shrinkLoop_cons (maxPS : Int) (s : Nat) (rest : List Nat) (ps t : Int) :
    shrinkLoop maxPS (s :: rest) ps t
      = if ps - (s : Int) ≤ maxPS then some (t - 1)
        else shrinkLoop maxPS rest (ps - (s : Int)) (t - 1) := rfl

/-- A successful shrink loop certifies that the starting size minus the
recorded sizes of some non-empty window of oldest retained turns is within
the budget. -/
theorem shrinkLoop_estimate (maxPS : Int) :
    ∀ (sizes : List Nat) (ps t tr : Int), shrinkLoop maxPS sizes ps t = some tr →
      ∃ k, 1 ≤ k ∧ k ≤ sizes.length ∧ ps - (((sizes.take k).sum : Nat) : Int) ≤ maxPS := by
  intro sizes
  induction sizes with
  | nil => intro ps t tr h; cases h
  | cons s rest ih =>
    intro ps t tr h
    rw [shrinkLoop_cons] at h
    by_cases hif : ps - (s : Int) ≤ maxPS
    · refine ⟨1, le_refl 1, by simp, ?_⟩
      have hsum : (((s :: rest).take 1).sum : Nat) = s := by simp
      rw [hsum]
      exact hif
    · rw [if_neg hif] at h
      obtain ⟨k, hk1, hk2, hk3⟩ := ih (ps - (s : Int)) (t - 1) tr h
      refine ⟨k + 1, by omega, by simp [List.length_cons]; omega, ?_⟩
      rw [List.take_succ_cons, List.sum_cons]
      push_cast
      push_cast at hk3
      omega

/-- Unfolding lemma for `update_max_context_examples`. -/
theorem update_max_context_examples_eq (st : BotState) (ps m : Int) :
    update_max_context_examples st ps m
      = if m > 0 then
          match shrinkLoop st.max_prompt_size (pyTail st.prompt_size_history m) ps
              (min (st.chat_history.length : Int) m) with
          | some trimmed => .ok ({ st with curr_max_context_examples := trimmed }, trimmed)
          | none => .error "PromptTooLargeError"
        else .error "PromptTooLargeError" := rfl

/-- A successful window update only rewrites the transient
`curr_max_context_examples` attribute. -/
theorem update_preserves (st : BotState) (ps m : Int) (s : BotState) (mce : Int)
    (h : update_max_context_examples st ps m = .ok (s, mce)) :
    s = { st with curr_max_context_examples := mce } := by
  rw [update_max_context_examples_eq] at h
  by_cases hm : m > 0
  · rw [if_pos hm] at h
    rcases hs : shrinkLoop st.max_prompt_size (pyTail st.prompt_size_history m) ps
        (min (st.chat_history.length : Int) m) with _ | t
    · rw [hs] at h; cases h
    · rw [hs] at h
      rw [Except.ok.injEq, Prod.mk.injEq] at h
      rw [← h.1, ← h.2]
  · rw [if_neg hm] at h; cases h

/-- Unfolding lemma for `assembleForReply`. -/
theorem assembleForReply_eq (tok : String → Nat) (st : BotState) (q : String) :
    assembleForReply tok st q
      = if (tok (get_current_prompt st q none) : Int) > st.max_prompt_size then
          match update_max_context_examples st (tok (get_current_prompt st q none))
              st.chatbot_max_context_examples with
          | .ok (st1, mce) => .ok (st1, get_current_prompt st1 q (some mce))
          | .error e => .error e
        else .ok (st, get_current_prompt st q none) := rfl

/-- Unfolding lemma for `reply`. -/
theorem reply_eq (tok : String → Nat) (gen : String) (st : BotState) (q : String) :
    reply tok gen st q
      = match assembleForReply tok st q with
        | .error e => (st, .error e)
        | .ok (st1, current_prompt) =>
          ({ st1 with
              chat_history := st1.chat_history
                ++ [st1.prompt.create_interaction [q, postprocessResponse st1.stop_sequences gen] []],
              prompt_size_history := st1.prompt_size_history
                ++ [tok (st1.prompt.create_interaction_string
                      [q, postprocessResponse st1.stop_sequences gen] [])],
              prompt_history := st1.prompt_history ++ [current_prompt] },
           .ok (postprocessResponse st1.stop_sequences gen)) := rfl

/-- A successful prompt assembly leaves every session attribute except the
transient `curr_max_context_examples` unchanged. -/
theorem assemble_preserves (tok : String → Nat) (st : BotState) (q : String)
    (s : BotState) (c : String) (h : assembleForReply tok st q = .ok (s, c)) :
    s.prompt = st.prompt
    ∧ s.chatbot_max_context_examples = st.chatbot_max_context_examples
    ∧ s.stop_sequences = st.stop_sequences
    ∧ s.max_prompt_size = st.max_prompt_size
    ∧ s.chat_history = st.chat_history
    ∧ s.prompt_size_history = st.prompt_size_history
    ∧ s.prompt_history = st.prompt_history := by
  rw [assembleForReply_eq] at h
  by_cases hb : (tok (get_current_prompt st q none) : Int) > st.max_prompt_size
  · rw [if_pos hb] at h
    rcases hu : update_max_context_examples st (tok (get_current_prompt st q none))
        st.chatbot_max_context_examples with e | ⟨st1, mce⟩
    · rw [hu] at h; cases h
    · rw [hu] at h
      rw [Except.ok.injEq, Prod.mk.injEq] at h
      have hs1 := update_preserves st _ _ st1 mce hu
      rw [← h.1, hs1]
      exact ⟨rfl, rfl, rfl, rfl, rfl, rfl, rfl⟩
  · rw [if_neg hb] at h
    rw [Except.ok.injEq, Prod.mk.injEq] at h
    rw [← h.1]
    exact ⟨rfl, rfl, rfl, rfl, rfl, rfl, rfl⟩

/-- Claim C2 (confirmed): when `reply` raises the prompt-too-large error,
the chat history, the prompt-size history and the prompt history are exactly
as they were before the call — the raise happens before any append, so no
partial append is visible and the session stays usable. -/
theorem reply_error_keeps_state (tok : String → Nat) (gen : String) (st : BotState)
    (q : String) (st2 : BotState) (e : String)
    (h : reply tok gen st q = (st2, .error e)) :
    st2.chat_history = st.chat_history
    ∧ st2.prompt_size_history = st.prompt_size_history
    ∧ st2.prompt_history = st.prompt_history := by
  rw [reply_eq] at h
  rcases hA : assembleForReply tok st q with e2 | ⟨s, c⟩
  · rw [hA] at h
    rw [Prod.mk.injEq] at h
    rw [← h.1]
    exact ⟨rfl, rfl, rfl⟩
  · rw [hA] at h
    rw [Prod.mk.injEq] at h
    exact absurd h.2 (fun hc => Except.noConfusion hc)

/-- Witness for C2: a session whose stored prompt sizes cannot absorb the
oversized prompt; `reply` raises and all three histories are untouched. -/
theorem reply_error_keeps_state_witness :
    (reply String.length "x" oversizedState "q").1.chat_history = oversizedState.chat_history
    ∧ (reply String.length "x" oversizedState "q").1.prompt_size_history
        = oversizedState.prompt_size_history
    ∧ (reply String.length "x" oversizedState "q").1.prompt_history
        = oversizedState.prompt_history :=
  reply_error_keeps_state String.length "x" oversizedState "q"
    (reply String.length "x" oversizedState "q").1 "PromptTooLargeError" (by rfl)

/-- Claim C3 (code bug observed, appends proved): a successful `reply`
appends exactly one interaction — built by `create_interaction` from the
query and the post-processed response — to the chat history, appends that
interaction's token cost to the prompt-size history (keeping the two
sequences index-aligned, each one entry longer), but returns the
post-processed response STRING, not the appended `Interaction` that its
annotation, docstring and base-class contract promise. -/
theorem reply_appends_one (tok : String → Nat) (gen : String) (st : BotState)
    (q : String) (st2 : BotState) (r : String)
    (h : reply tok gen st q = (st2, .ok r)) :
    r = postprocessResponse st.stop_sequences gen
    ∧ st2.chat_history = st.chat_history ++ [st.prompt.create_interaction [q, r] []]
    ∧ st2.prompt_size_history
        = st.prompt_size_history ++ [tok (st.prompt.create_interaction_string [q, r] [])]
    ∧ st2.chat_history.length = st.chat_history.length + 1
    ∧ st2.prompt_size_history.length = st.prompt_size_history.length + 1 := by
  rw [reply_eq] at h
  rcases hA : assembleForReply tok st q with e | ⟨s, c⟩
  · rw [hA] at h
    rw [Prod.mk.injEq] at h
    exact absurd h.2 (fun hc => Except.noConfusion hc)
  · rw [hA] at h
    obtain ⟨hp, hc, hs, _, hh, hpsh, _⟩ := assemble_preserves tok st q s c hA
    rw [Prod.mk.injEq] at h
    have hr : r = postprocessResponse st.stop_sequences gen := by
      rw [← hs]
      exact (Except.ok.injEq _ _ ▸ h.2.symm : _)
    refine ⟨hr, ?_, ?_, ?_, ?_⟩
    · rw [← h.1, hr]
      show s.chat_history
          ++ [s.prompt.create_interaction [q, postprocessResponse s.stop_sequences gen] []] = _
      rw [hh, hp, hs]
    · rw [← h.1, hr]
      show s.prompt_size_history
          ++ [tok (s.prompt.create_interaction_string
                [q, postprocessResponse s.stop_sequences gen] [])] = _
      rw [hpsh, hp, hs]
    · rw [← h.1]
      show (s.chat_history ++ [_]).length = _
      rw [List.length_append, hh]
      rfl
    · rw [← h.1]
      show (s.prompt_size_history ++ [_]).length = _
      rw [List.length_append, hpsh]
      rfl

/-- Witness and failing-input evaluation for C3: on a fresh session the
returned value is the bare response string "Hello!", while the appended
interaction is the dictionary built from the query and that string. -/
theorem reply_appends_one_witness :
    "Hello!" = postprocessResponse scenarioState.stop_sequences "Hello!\n"
    ∧ (reply String.length "Hello!\n" scenarioState "q").1.chat_history
        = scenarioState.chat_history ++ [scenarioState.prompt.create_interaction ["q", "Hello!"] []]
    ∧ (reply String.length "Hello!\n" scenarioState "q").1.prompt_size_history
        = scenarioState.prompt_size_history
          ++ [String.length (scenarioState.prompt.create_interaction_string ["q", "Hello!"] [])]
    ∧ (reply String.length "Hello!\n" scenarioState "q").1.chat_history.length
        = scenarioState.chat_history.length + 1
    ∧ (reply String.length "Hello!\n" scenarioState "q").1.prompt_size_history.length
        = scenarioState.prompt_size_history.length + 1 :=
  reply_appends_one String.length "Hello!\n" scenarioState "q"
    (reply String.length "Hello!\n" scenarioState "q").1 "Hello!" (by rfl)

/-- Claim C1 (amended, proved): when `reply` returns a candidate, either no
shrink happened and the returned candidate's tokenized length is within
`max_prompt_size`, or the shrink loop ran and only the bookkeeping estimate
— the initial tokenized size minus the recorded sizes of the evicted oldest
window entries — is within `max_prompt_size`; the re-rendered candidate is
never re-tokenized. -/
theorem reply_budget_estimate (tok : String → Nat) (gen : String) (st : BotState)
    (q : String) (st2 : BotState) (r : String)
    (h : reply tok gen st q = (st2, .ok r)) :
    (tok (get_current_prompt st q none) : Int) ≤ st.max_prompt_size
    ∨ (∃ k, 1 ≤ k
        ∧ k ≤ (pyTail st.prompt_size_history st.chatbot_max_context_examples).length
        ∧ (tok (get_current_prompt st q none) : Int)
            - ((((pyTail st.prompt_size_history st.chatbot_max_context_examples).take k).sum : Nat) : Int)
            ≤ st.max_prompt_size) := by
  rw [reply_eq] at h
  rcases hA : assembleForReply tok st q with e | ⟨s, c⟩
  · rw [hA] at h
    rw [Prod.mk.injEq] at h
    exact absurd h.2 (fun hc => Except.noConfusion hc)
  · rw [assembleForReply_eq] at hA
    by_cases hb : (tok (get_current_prompt st q none) : Int) > st.max_prompt_size
    · right
      rw [if_pos hb] at hA
      rcases hu : update_max_context_examples st (tok (get_current_prompt st q none))
          st.chatbot_max_context_examples with e2 | ⟨st1, mce⟩
      · rw [hu] at hA; cases hA
      · rw [update_max_context_examples_eq] at hu
        by_cases hm : st.chatbot_max_context_examples > 0
        · rw [if_pos hm] at hu
          rcases hs : shrinkLoop st.max_prompt_size
              (pyTail st.prompt_size_history st.chatbot_max_context_examples)
              (tok (get_current_prompt st q none))
              (min (st.chat_history.length : Int) st.chatbot_max_context_examples) with _ | t
          · rw [hs] at hu; cases hu
          · exact shrinkLoop_estimate st.max_prompt_size _ _ _ t hs
        · rw [if_neg hm] at hu; cases hu
    · left
      omega

/-- Witness for the amended C1 on a fresh fitting session: the first branch
holds and `reply` succeeds. -/
theorem reply_budget_estimate_witness :
    (String.length (get_current_prompt scenarioState "q" none) : Int)
        ≤ scenarioState.max_prompt_size
    ∨ (∃ k, 1 ≤ k
        ∧ k ≤ (pyTail scenarioState.prompt_size_history
                scenarioState.chatbot_max_context_examples).length
        ∧ (String.length (get_current_prompt scenarioState "q" none) : Int)
            - ((((pyTail scenarioState.prompt_size_history
                  scenarioState.chatbot_max_context_examples).take k).sum : Nat) : Int)
            ≤ scenarioState.max_prompt_size) :=
  reply_budget_estimate String.length "Hello!\n" scenarioState "q"
    (reply String.length "Hello!\n" scenarioState "q").1 "Hello!" (by rfl)

/-- Counterexample to C1 as stated: on `overestimateState` (whose recorded
prompt-size history overestimates the stored turn), `reply` succeeds after a
shrink, yet the candidate it re-rendered and recorded has tokenized length
18, exceeding `max_prompt_size = 8` — the shrunk prompt is never
re-tokenized against the budget. -/
theorem reply_budget_counterexample :
    (reply String.length "Hi" overestimateState "q").2 = .ok "Hi"
    ∧ (reply String.length "Hi" overestimateState "q").1.prompt_history.getLastD ""
        = "abcdefghij\nU: q\nB:"
    ∧ overestimateState.max_prompt_size
        < (String.length ((reply String.length "Hi" overestimateState "q").1.prompt_history.getLastD "") : Int) := by
  refine ⟨rfl, rfl, by decide⟩

/-- Claim C5 (confirmed): a transient per-turn shrink never mutates the
configured `chatbot_config["max_context_examples"]` — it survives every
`reply` unchanged — and the observable outcome of a `reply` (appended chat
history, recorded prompts, returned value) does not depend on the transient
`curr_max_context_examples` left by earlier turns: each turn's window ceiling
is the configured value. -/
theorem reply_transient_window (tok : String → Nat) (gen : String) (st : BotState)
    (q : String) (x : Int) :
    (reply tok gen st q).1.chatbot_max_context_examples = st.chatbot_max_context_examples
    ∧ (reply tok gen { st with curr_max_context_examples := x } q).1.chat_history
        = (reply tok gen st q).1.chat_history
    ∧ (reply tok gen { st with curr_max_context_examples := x } q).1.prompt_history
        = (reply tok gen st q).1.prompt_history
    ∧ (reply tok gen { st with curr_max_context_examples := x } q).2
        = (reply tok gen st q).2 := by
  have key : assembleForReply tok { st with curr_max_context_examples := x } q
      = if (tok (get_current_prompt st q none) : Int) > st.max_prompt_size then
          match update_max_context_examples st (tok (get_current_prompt st q none))
              st.chatbot_max_context_examples with
          | .ok (st1, mce) => .ok (st1, get_current_prompt st1 q (some mce))
          | .error e => .error e
        else .ok ({ st with curr_max_context_examples := x }, get_current_prompt st q none) := rfl
  simp only [reply_eq, key, assembleForReply_eq]
  by_cases hb : (tok (get_current_prompt st q none) : Int) > st.max_prompt_size
  · simp only [if_pos hb]
    rcases hu : update_max_context_examples st (tok (get_current_prompt st q none))
        st.chatbot_max_context_examples with e | ⟨s, mce⟩
    · simp only [hu]
      exact ⟨by trivial, by trivial, by trivial, by trivial⟩
    · simp only [hu]
      have hs := update_preserves st _ _ s mce hu
      subst hs
      exact ⟨by trivial, by trivial, by trivial, by trivial⟩
  · simp only [if_neg hb]
    exact ⟨by trivial, by trivial, by trivial, by trivial⟩
